import Mathlib

/-!
Verification of a minimal serde-style deserialization backend.

The program deserializes strongly typed values (structs, tuples, nested
sequences) from a flat ordered list of tagged scalars (`Value`), via a
position-tracked cursor (`Deserializer`), strict type-tag checking per
scalar read (`next_i32` / `next_i64`), and an end-of-input check in the
top-level entry point (`from_values`).

The embedding below translates the source file `src/main.rs`:
* `Value`, `Error`, `Deserializer` and its methods `peek_value`,
  `next_value`, `next_i32`, `next_i64` are direct transcriptions;
  mutation of `self.idx` becomes explicit state passing (each mutating
  operation returns the result together with the updated cursor).
* The generic serde framework drives construction by the *shape* of the
  target type.  `Shape` describes the shapes reachable from the source's
  deserializer methods: 32/64-bit integers, structs/tuples (both routed
  through `deserialize_seq`, filled positionally), `Vec` (filled until
  the sequence access reports exhaustion), and the unsupported shapes
  whose methods in the source are `todo!()` stubs (which panic).
* `DRes` is the outcome of one deserialization: `ok`, a returned `err`,
  or `panic` (an unrecoverable abort, produced by the `todo!()` stubs).
* `next_element_seed` transcribes the `SeqAccess` impl for `Values`:
  peek, return `ok none` on exhausted input, otherwise delegate.
* `read_fields` models the serde-derive generated visitor for a struct
  or tuple with the given field shapes: one `next_element_seed` call per
  field, in order; a `none` answer mid-struct produces serde's
  `invalid_length` error, which this format's `de::Error::custom` maps
  to `Error.Message` (the real message text also carries the length and
  the expected type; only the constructor matters here).
* `read_elems` models the derived visitor for `Vec`: loop over
  `next_element_seed` until it answers `none`.  The loop is given fuel
  `remaining + 1`; running out of fuel (possible only for element shapes
  that consume no input, which correspond to no Rust type in the source)
  is modelled as `panic`, standing for a non-terminating loop.
-/

/-- The tagged scalar union from the source: `enum Value { I32(i32), I64(i64) }`.
Payloads are carried as mathematical integers; no arithmetic is performed
on them anywhere in the program, so overflow never enters. -/
inductive Value where
  | I32 (v : Int)
  | I64 (v : Int)
  deriving Repr, DecidableEq

/-- The error enum from the source. -/
inductive Error where
  | InputNotEmpty
  | InputEmpty
  | TypeMismatch (expected found : String)
  | Message (msg : String)
  deriving Repr, DecidableEq

/-- The cursor: a borrowed view of the input plus a read index
(`struct Deserializer { input: &[Value], idx: usize }`). -/
structure Deserializer where
  input : List Value
  idx : Nat
  deriving Repr, DecidableEq

namespace Deserializer

/-- The constructor `Deserializer::from_values`: cursor at index 0. -/
def from_values (input : List Value) : Deserializer :=
  { input := input, idx := 0 }

/-- Method `peek_value`: element at the current index, without advancing;
`InputEmpty` if `idx >= input.len()`. -/
def peek_value (d : Deserializer) : Except Error Value :=
  if h : d.idx < d.input.length then .ok d.input[d.idx]
  else .error .InputEmpty

/-- Method `next_value`: same failure condition; on success advances `idx` by one
and returns the element at the old index.  The updated cursor is returned
alongside the result (the source mutates `self.idx`). -/
def next_value (d : Deserializer) : Except Error Value × Deserializer :=
  if h : d.idx < d.input.length then
    (.ok d.input[d.idx], { d with idx := d.idx + 1 })
  else
    (.error .InputEmpty, d)

/-- Method `next_i32`: peek; on an `I32` tag advance and return the payload; on an
`I64` tag fail with `TypeMismatch` without advancing. -/
def next_i32 (d : Deserializer) : Except Error Int × Deserializer :=
  match d.peek_value with
  | .error e => (.error e, d)
  | .ok (Value.I32 v) => (.ok v, { d with idx := d.idx + 1 })
  | .ok (Value.I64 _) => (.error (.TypeMismatch "i32" "i64"), d)

/-- Method `next_i64`: symmetric to `next_i32` with the kinds reversed. -/
def next_i64 (d : Deserializer) : Except Error Int × Deserializer :=
  match d.peek_value with
  | .error e => (.error e, d)
  | .ok (Value.I64 v) => (.ok v, { d with idx := d.idx + 1 })
  | .ok (Value.I32 _) => (.error (.TypeMismatch "i64" "i32"), d)

end Deserializer

/-- Outcome of one deserialization: a value, a returned error, or an
unrecoverable abort (the `todo!()` stubs in the source). -/
inductive DRes (α : Type) where
  | ok (a : α)
  | err (e : Error)
  | panic
  deriving Repr

/-- Shapes of target types, as seen by the deserializer's methods.
`tupleS` covers structs, tuples and tuple-field lists (the source routes
`deserialize_struct` and `deserialize_tuple` to `deserialize_seq` and the
derived visitor reads exactly the declared number of fields); `vec` is a
variable-length sequence.  The remaining constructors are the target
shapes whose deserializer methods in the source are `todo!()` stubs. -/
inductive Shape where
  | i32
  | i64
  | tupleS (fields : List Shape)
  | vec (elem : Shape)
  | boolS
  | strS
  | bytesS
  | optionS
  | unitS
  | mapS
  | enumS
  | f64S
  deriving Repr

/-- Shapes whose deserializer methods are `todo!()` stubs in the source. -/
def Shape.unsupported : Shape → Bool
  | .boolS | .strS | .bytesS | .optionS | .unitS | .mapS | .enumS | .f64S => true
  | _ => false

/-- Deserialized values: scalars, positional aggregates (structs and
tuples), and sequences. -/
inductive DVal where
  | int32 (v : Int)
  | int64 (v : Int)
  | tupleV (vs : List DVal)
  | vecV (vs : List DVal)
  deriving Repr

mutual

/-- Shape-directed deserialization.  Scalar shapes go through
`deserialize_i32`/`deserialize_i64` (i.e. `next_i32`/`next_i64` plus the
visitor wrapping the integer); `tupleS` goes through
`deserialize_struct`/`deserialize_tuple` → `deserialize_seq` →
`visit_seq` with the derived fixed-arity visitor (`read_fields`); `vec`
goes through `deserialize_seq` → `visit_seq` with the `Vec` visitor
(`read_elems`); every unsupported shape hits a `todo!()` stub and
panics. -/
def deserialize : Shape → Deserializer → DRes DVal × Deserializer
  | .i32, d =>
    match d.next_i32 with
    | (.ok v, d2) => (.ok (.int32 v), d2)
    | (.error e, d2) => (.err e, d2)
  | .i64, d =>
    match d.next_i64 with
    | (.ok v, d2) => (.ok (.int64 v), d2)
    | (.error e, d2) => (.err e, d2)
  | .tupleS fields, d =>
    match read_fields fields d with
    | (.ok vs, d2) => (.ok (.tupleV vs), d2)
    | (.err e, d2) => (.err e, d2)
    | (.panic, d2) => (.panic, d2)
  | .vec elem, d =>
    match read_elems elem (d.input.length - d.idx + 1) d with
    | (.ok vs, d2) => (.ok (.vecV vs), d2)
    | (.err e, d2) => (.err e, d2)
    | (.panic, d2) => (.panic, d2)
  | .boolS, d => (.panic, d)
  | .strS, d => (.panic, d)
  | .bytesS, d => (.panic, d)
  | .optionS, d => (.panic, d)
  | .unitS, d => (.panic, d)
  | .mapS, d => (.panic, d)
  | .enumS, d => (.panic, d)
  | .f64S, d => (.panic, d)
termination_by s _ => (sizeOf s, 0)

/-- Method `SeqAccess::next_element_seed` for `Values`: peek the cursor; if the
input is exhausted answer `ok none`; otherwise delegate one element's
deserialization and wrap its success in `some`. -/
def next_element_seed : Shape → Deserializer → DRes (Option DVal) × Deserializer
  | elem, d =>
    match d.peek_value with
    | .error _ => (.ok none, d)
    | .ok _ =>
      match deserialize elem d with
      | (.ok v, d2) => (.ok (some v), d2)
      | (.err e, d2) => (.err e, d2)
      | (.panic, d2) => (.panic, d2)
termination_by elem _ => (sizeOf elem, 1)

/-- The serde-derive visitor for a struct/tuple with the given field
shapes: call `next_element_seed` once per field, in declaration order; a
`none` answer before all fields are filled is serde's `invalid_length`
error, mapped through this format's `de::Error::custom` to
`Error.Message` (the real message also names the length and expected
type; only the constructor matters here). -/
def read_fields : List Shape → Deserializer → DRes (List DVal) × Deserializer
  | [], d => (.ok [], d)
  | f :: fs, d =>
    match next_element_seed f d with
    | (.ok (some v), d2) =>
      match read_fields fs d2 with
      | (.ok vs, d3) => (.ok (v :: vs), d3)
      | (.err e, d3) => (.err e, d3)
      | (.panic, d3) => (.panic, d3)
    | (.ok none, d2) => (.err (.Message "invalid length"), d2)
    | (.err e, d2) => (.err e, d2)
    | (.panic, d2) => (.panic, d2)
termination_by fs _ => (sizeOf fs, 0)

/-- The `Vec` visitor: call `next_element_seed` until it answers `none`,
collecting elements.  The fuel bounds the loop; exhausting it (possible
only for element shapes that consume no input, which correspond to no
Rust type in the source) is modelled as `panic`, standing for a
non-terminating loop. -/
def read_elems : Shape → Nat → Deserializer → DRes (List DVal) × Deserializer
  | _, 0, d => (.panic, d)
  | elem, fuel + 1, d =>
    match next_element_seed elem d with
    | (.ok none, d2) => (.ok [], d2)
    | (.ok (some v), d2) =>
      match read_elems elem fuel d2 with
      | (.ok vs, d3) => (.ok (v :: vs), d3)
      | (.err e, d3) => (.err e, d3)
      | (.panic, d3) => (.panic, d3)
    | (.err e, d2) => (.err e, d2)
    | (.panic, d2) => (.panic, d2)
termination_by elem fuel _ => (sizeOf elem, 2 + fuel)

end

/-- The top-level entry point `from_values`: build a cursor at index 0,
deserialize the target, then require the whole input to have been
consumed (`idx >= input.len()`), else fail with `InputNotEmpty`. -/
def from_values (shape : Shape) (s : List Value) : DRes DVal :=
  let deserializer := Deserializer.from_values s
  match deserialize shape deserializer with
  | (.ok t, d2) => if d2.input.length ≤ d2.idx then .ok t else .err .InputNotEmpty
  | (.err e, _) => .err e
  | (.panic, _) => .panic

/-- The target shape of `struct Point { x: i32, y: i32 }`. -/
def pointShape : Shape := .tupleS [.i32, .i32]

/-- The target shape of `struct Point64 { x: i64, y: i64 }`. -/
def point64Shape : Shape := .tupleS [.i64, .i64]

/-- The target shape of
`struct Compound { points: (Point, Point), more_points: Vec<Point64> }`. -/
def compoundShape : Shape :=
  .tupleS [.tupleS [pointShape, pointShape], .vec point64Shape]

/-- The per-operation cursor contract: each consuming operation keeps the
input intact, never moves the index backwards, never moves it past the end
(given it starts within bounds), advances by exactly one on success, and
leaves the cursor untouched on failure. -/
def CursorOpSpec (d : Deserializer) : Prop :=
  (d.next_value.2.input = d.input ∧
    d.idx ≤ d.next_value.2.idx ∧ d.next_value.2.idx ≤ d.input.length ∧
    (∀ v, d.next_value.1 = .ok v → d.next_value.2.idx = d.idx + 1) ∧
    (∀ e, d.next_value.1 = .error e → d.next_value.2 = d)) ∧
  (d.next_i32.2.input = d.input ∧
    d.idx ≤ d.next_i32.2.idx ∧ d.next_i32.2.idx ≤ d.input.length ∧
    (∀ v, d.next_i32.1 = .ok v → d.next_i32.2.idx = d.idx + 1) ∧
    (∀ e, d.next_i32.1 = .error e → d.next_i32.2 = d)) ∧
  (d.next_i64.2.input = d.input ∧
    d.idx ≤ d.next_i64.2.idx ∧ d.next_i64.2.idx ≤ d.input.length ∧
    (∀ v, d.next_i64.1 = .ok v → d.next_i64.2.idx = d.idx + 1) ∧
    (∀ e, d.next_i64.1 = .error e → d.next_i64.2 = d))

/-- Reading a run of consecutive `I32` scalars with a run of `i32` fields
consumes exactly that run and returns the payloads in order. -/
theorem read_fields_all_i32 (vals : List Int) (d : Deserializer)
    (h : d.input.drop d.idx = vals.map Value.I32) :
    read_fields (List.replicate vals.length Shape.i32) d
      = (.ok (vals.map DVal.int32), { d with idx := d.idx + vals.length }) := by
  induction vals generalizing d with
  | nil => simp [read_fields]
  | cons v vs ih =>
    have hlt : d.idx < d.input.length := by
      by_contra hge
      have : d.input.drop d.idx = [] := List.drop_eq_nil_of_le (by omega)
      simp [this] at h
    have hget : d.input[d.idx]? = some (Value.I32 v) := by
      rw [← List.head?_drop, h]
      rfl
    have hpeek : d.peek_value = .ok (Value.I32 v) := by
      have := List.getElem?_eq_getElem hlt
      rw [this] at hget
      simp [Deserializer.peek_value, hlt]
      exact Option.some.inj hget
    have hdrop : d.input.drop (d.idx + 1) = vs.map Value.I32 := by
      have : d.input.drop (d.idx + 1) = (d.input.drop d.idx).drop 1 := by
        rw [List.drop_drop]
      rw [this, h]
      simp
    have ih2 := ih { d with idx := d.idx + 1 } hdrop
    simp only [List.map_cons, List.length_cons, List.replicate_succ, read_fields,
      next_element_seed, deserialize, Deserializer.next_i32, hpeek, ih2]
    simp only [Prod.mk.injEq, Deserializer.mk.injEq, true_and, and_true]
    omega

/-- If the `Vec` visitor's loop returns successfully, it stopped because
`peek_value` reported exhaustion: the final cursor index has reached the
end of the input. -/
theorem read_elems_ok_exhausts (elem : Shape) (fuel : Nat) (d d2 : Deserializer)
    (vs : List DVal) (h : read_elems elem fuel d = (.ok vs, d2)) :
    d2.input.length ≤ d2.idx := by
  induction fuel generalizing d vs with
  | zero => simp [read_elems] at h
  | succ fuel ih =>
    rw [read_elems] at h
    split at h
    · rename_i d3 hne
      obtain ⟨-, rfl⟩ := Prod.mk.injEq .. ▸ h
      rw [next_element_seed] at hne
      split at hne
      · rename_i hpeek
        obtain ⟨-, rfl⟩ := Prod.mk.injEq .. ▸ hne
        rw [Deserializer.peek_value] at hpeek
        split at hpeek
        · exact absurd hpeek (by simp)
        · omega
      · split at hne <;> simp_all
    · rename_i v d3 hne
      split at h
      · rename_i vs2 d4 hrec
        obtain ⟨-, rfl⟩ := Prod.mk.injEq .. ▸ h
        exact ih d3 vs2 hrec
      · simp_all
      · simp_all
    · simp_all
    · simp_all

/-- Projection fact for `next_i32`: whatever the outcome, the returned
cursor's input is the original input. -/
theorem next_i32_input_eq (d : Deserializer) : d.next_i32.2.input = d.input := by
  unfold Deserializer.next_i32
  split <;> rfl

/-- Projection fact for `next_i64`: whatever the outcome, the returned
cursor's input is the original input. -/
theorem next_i64_input_eq (d : Deserializer) : d.next_i64.2.input = d.input := by
  unfold Deserializer.next_i64
  split <;> rfl

/-- Deserialization never modifies the cursor's `input` field — only the
index moves.  Joint statement for the four mutually recursive
functions. -/
theorem input_never_modified :
    (∀ sh d, (deserialize sh d).2.input = d.input) ∧
    (∀ elem fuel d, (read_elems elem fuel d).2.input = d.input) ∧
    (∀ elem d, (next_element_seed elem d).2.input = d.input) ∧
    (∀ fs d, (read_fields fs d).2.input = d.input) := by
  apply deserialize.mutual_induct
  · intro d v d2 h
    have h2 := next_i32_input_eq d
    rw [h] at h2
    simp only [deserialize, h]
    exact h2
  · intro d e d2 h
    have h2 := next_i32_input_eq d
    rw [h] at h2
    simp only [deserialize, h]
    exact h2
  · intro d v d2 h
    have h2 := next_i64_input_eq d
    rw [h] at h2
    simp only [deserialize, h]
    exact h2
  · intro d e d2 h
    have h2 := next_i64_input_eq d
    rw [h] at h2
    simp only [deserialize, h]
    exact h2
  all_goals intros
  all_goals simp_all [deserialize, read_elems, next_element_seed, read_fields]

/-- C1: for every N and every input of N kind-A (32-bit) scalars,
`from_values` into a flat struct/tuple of N 32-bit-integer fields
succeeds, and the i-th field equals the i-th scalar's payload. -/
theorem from_values_all_i32_roundtrip (vals : List Int) :
    from_values (Shape.tupleS (List.replicate vals.length Shape.i32))
        (vals.map Value.I32)
      = .ok (.tupleV (vals.map DVal.int32)) := by
  have h := read_fields_all_i32 vals (Deserializer.from_values (vals.map Value.I32))
    (by simp [Deserializer.from_values])
  simp only [from_values, deserialize, h]
  simp [Deserializer.from_values]

/-- C2: if the recursive construction succeeds but the final cursor index
is strictly below the input length, `from_values` discards the value and
fails with `InputNotEmpty`; if the index equals the length, it returns
the value. -/
theorem from_values_trailing_check (shape : Shape) (s : List Value) (t : DVal)
    (d2 : Deserializer)
    (h : deserialize shape (Deserializer.from_values s) = (.ok t, d2)) :
    (d2.idx < s.length → from_values shape s = .err .InputNotEmpty) ∧
    (d2.idx = s.length → from_values shape s = .ok t) := by
  have hinp : d2.input = s := by
    have h2 := input_never_modified.1 shape (Deserializer.from_values s)
    rw [h] at h2
    exact h2
  constructor <;> intro hc
  · simp only [from_values, h]
    rw [if_neg (by rw [hinp]; omega)]
  · simp only [from_values, h]
    rw [if_pos (by rw [hinp]; omega)]

/-- Witness for C2 at the spec's example: `[A(1),A(2),A(3)]` against the
2-field 32-bit struct builds `{x:1,y:2}` with one element left over, so
`from_values` fails with `InputNotEmpty`. -/
theorem from_values_trailing_check_example :
    deserialize pointShape
        (Deserializer.from_values [Value.I32 1, Value.I32 2, Value.I32 3])
      = (.ok (.tupleV [.int32 1, .int32 2]),
         ⟨[Value.I32 1, Value.I32 2, Value.I32 3], 2⟩) ∧
    from_values pointShape [Value.I32 1, Value.I32 2, Value.I32 3]
      = .err .InputNotEmpty := by
  have hde : deserialize pointShape
      (Deserializer.from_values [Value.I32 1, Value.I32 2, Value.I32 3])
      = (.ok (.tupleV [.int32 1, .int32 2]),
         ⟨[Value.I32 1, Value.I32 2, Value.I32 3], 2⟩) := by
    simp [pointShape, deserialize, read_fields, next_element_seed,
      Deserializer.peek_value, Deserializer.next_i32, Deserializer.from_values]
  exact ⟨hde, (from_values_trailing_check _ _ _ _ hde).1 (by decide)⟩

/-- C3: a typed read is atomic.  On a wrong-kind element, `next_i32` and
`next_i64` fail with the `TypeMismatch` naming both kinds and leave the
cursor untouched; on a matching kind they advance by exactly one and
return the unwrapped payload. -/
theorem take_kind_atomicity (d : Deserializer) :
    (∀ v, d.peek_value = .ok (Value.I64 v) →
      d.next_i32 = (.error (.TypeMismatch "i32" "i64"), d)) ∧
    (∀ v, d.peek_value = .ok (Value.I32 v) →
      d.next_i32 = (.ok v, { d with idx := d.idx + 1 })) ∧
    (∀ v, d.peek_value = .ok (Value.I32 v) →
      d.next_i64 = (.error (.TypeMismatch "i64" "i32"), d)) ∧
    (∀ v, d.peek_value = .ok (Value.I64 v) →
      d.next_i64 = (.ok v, { d with idx := d.idx + 1 })) := by
  refine ⟨?_, ?_, ?_, ?_⟩ <;> intro v hv <;>
    simp [Deserializer.next_i32, Deserializer.next_i64, hv]

/-- Witness for C3: a wrong-kind read fails without moving the cursor,
and the retry-compatible state then accepts a right-kind read. -/
theorem take_kind_atomicity_example :
    Deserializer.peek_value ⟨[Value.I64 7], 0⟩ = .ok (Value.I64 7) ∧
    Deserializer.next_i32 ⟨[Value.I64 7], 0⟩
      = (.error (.TypeMismatch "i32" "i64"), ⟨[Value.I64 7], 0⟩) ∧
    Deserializer.next_i64 ⟨[Value.I64 7], 0⟩ = (.ok 7, ⟨[Value.I64 7], 1⟩) ∧
    Deserializer.peek_value ⟨[Value.I32 5], 0⟩ = .ok (Value.I32 5) ∧
    Deserializer.next_i64 ⟨[Value.I32 5], 0⟩
      = (.error (.TypeMismatch "i64" "i32"), ⟨[Value.I32 5], 0⟩) ∧
    Deserializer.next_i32 ⟨[Value.I32 5], 0⟩ = (.ok 5, ⟨[Value.I32 5], 1⟩) :=
  ⟨rfl, (take_kind_atomicity _).1 7 rfl, (take_kind_atomicity _).2.2.2 7 rfl,
   rfl, (take_kind_atomicity _).2.2.1 5 rfl, (take_kind_atomicity _).2.1 5 rfl⟩

/-- C4: a target whose (first) field is 64-bit against a non-empty
all-kind-A input fails with `TypeMismatch`; the 32-bit payload is never
silently widened. -/
theorem from_values_i64_fields_mismatch (vals : List Int) (hne : vals ≠ [])
    (rest : List Shape) :
    from_values (Shape.tupleS (Shape.i64 :: rest)) (vals.map Value.I32)
      = .err (.TypeMismatch "i64" "i32") := by
  cases vals with
  | nil => exact absurd rfl hne
  | cons v vs =>
    simp [from_values, deserialize, read_fields, next_element_seed,
      Deserializer.peek_value, Deserializer.next_i64, Deserializer.from_values]

/-- Witness for C4 at the spec's example: `[A(1), A(2)]` against the
64-bit-field struct is a `TypeMismatch` error. -/
theorem from_values_i64_fields_mismatch_example :
    ([1, 2] : List Int) ≠ [] ∧
    from_values point64Shape (([1, 2] : List Int).map Value.I32)
      = .err (.TypeMismatch "i64" "i32") := by
  refine ⟨by simp, ?_⟩
  have h := from_values_i64_fields_mismatch [1, 2] (by simp) [Shape.i64]
  simpa [point64Shape] using h

set_option maxHeartbeats 1000000 in
/-- C5: scalars are consumed strictly left-to-right across nested
aggregates, at the spec's example: `[A(1),A(2),A(3),A(4),B(5),B(6)]`
against `Compound` yields `{points: ({1,2},{3,4}), more: [{5,6}]}`. -/
theorem from_values_compound_nested :
    from_values compoundShape
        [Value.I32 1, Value.I32 2, Value.I32 3, Value.I32 4, Value.I64 5, Value.I64 6]
      = .ok (.tupleV
          [.tupleV [.tupleV [.int32 1, .int32 2], .tupleV [.int32 3, .int32 4]],
           .vecV [.tupleV [.int64 5, .int64 6]]]) := by
  simp [from_values, compoundShape, pointShape, point64Shape, deserialize,
    read_fields, read_elems, next_element_seed, Deserializer.peek_value,
    Deserializer.next_i32, Deserializer.next_i64, Deserializer.from_values]

/-- C6: `next_element_seed` answers `ok none` exactly at end of input
(leaving the cursor in place); with input remaining it delegates one
element's deserialization; consequently a successful `Vec` target has
consumed the input to exhaustion. -/
theorem next_element_exhaustion (elem : Shape) (d : Deserializer) :
    (d.input.length ≤ d.idx → next_element_seed elem d = (.ok none, d)) ∧
    (d.idx < d.input.length →
      next_element_seed elem d =
        (match deserialize elem d with
         | (.ok v, d2) => (.ok (some v), d2)
         | (.err e, d2) => (.err e, d2)
         | (.panic, d2) => (.panic, d2))) ∧
    (∀ vs d2, deserialize (Shape.vec elem) d = (.ok vs, d2) →
      d2.input.length ≤ d2.idx) := by
  refine ⟨?_, ?_, ?_⟩
  · intro hle
    simp only [next_element_seed, Deserializer.peek_value, dif_neg (by omega : ¬ d.idx < d.input.length)]
  · intro hlt
    simp only [next_element_seed, Deserializer.peek_value, dif_pos hlt]
  · intro vs d2 h
    rw [deserialize] at h
    split at h
    · rename_i vs2 d3 hre
      obtain ⟨-, rfl⟩ := Prod.mk.injEq .. ▸ h
      exact read_elems_ok_exhausts _ _ _ _ _ hre
    · simp_all
    · simp_all

/-- Witness for C6: exhausted input answers `none` without error; with
input remaining one element is delegated and consumed; a successful
`Vec<i32>` run ends exactly at the input length. -/
theorem next_element_exhaustion_example :
    (([] : List Value).length ≤ 0 ∧
      next_element_seed Shape.i32 ⟨[], 0⟩ = (.ok none, ⟨[], 0⟩)) ∧
    ((0 : Nat) < [Value.I32 4].length ∧
      next_element_seed Shape.i32 ⟨[Value.I32 4], 0⟩
        = (.ok (some (.int32 4)), ⟨[Value.I32 4], 1⟩)) ∧
    (deserialize (Shape.vec Shape.i32) ⟨[Value.I32 4], 0⟩
        = (.ok (.vecV [.int32 4]), ⟨[Value.I32 4], 1⟩) ∧
      ([Value.I32 4] : List Value).length ≤ 1) := by
  refine ⟨⟨by simp, (next_element_exhaustion Shape.i32 ⟨[], 0⟩).1 (by simp)⟩,
    ⟨by simp, ?_⟩, ?_⟩
  · rw [(next_element_exhaustion Shape.i32 ⟨[Value.I32 4], 0⟩).2.1 (by simp)]
    simp [deserialize, Deserializer.next_i32, Deserializer.peek_value]
  · have hde : deserialize (Shape.vec Shape.i32) ⟨[Value.I32 4], 0⟩
        = (.ok (.vecV [.int32 4]), ⟨[Value.I32 4], 1⟩) := by
      simp [deserialize, read_elems, next_element_seed, Deserializer.next_i32,
        Deserializer.peek_value]
    exact ⟨hde, (next_element_exhaustion Shape.i32 ⟨[Value.I32 4], 0⟩).2.2 _ _ hde⟩

/-- C7 counterexample: `from_values` of the empty input against the
2-field 32-bit struct does fail, but with the framework's invalid-length
`Message` (serde's derived visitor maps a missing element through
`de::Error::invalid_length` → `custom`), not with `InputEmpty`. -/
theorem from_values_empty_struct_message :
    from_values pointShape [] = .err (.Message "invalid length") ∧
    from_values pointShape [] ≠ .err .InputEmpty := by
  have h : from_values pointShape [] = .err (.Message "invalid length") := by
    simp [from_values, pointShape, deserialize, read_fields, next_element_seed,
      Deserializer.peek_value, Deserializer.from_values]
  exact ⟨h, by simp [h]⟩

/-- C7 amended: on empty input any target needing at least one scalar
fails — a bare scalar target with `InputEmpty`, a struct/tuple target
with at least one declared field with the framework's invalid-length
`Message` — and no default field values are ever fabricated. -/
theorem from_values_empty_input_fails :
    from_values Shape.i32 [] = .err .InputEmpty ∧
    from_values Shape.i64 [] = .err .InputEmpty ∧
    ∀ f fs, from_values (Shape.tupleS (f :: fs)) [] = .err (.Message "invalid length") := by
  refine ⟨by simp [from_values, deserialize, Deserializer.next_i32,
      Deserializer.peek_value, Deserializer.from_values],
    by simp [from_values, deserialize, Deserializer.next_i64,
      Deserializer.peek_value, Deserializer.from_values], ?_⟩
  intro f fs
  simp [from_values, deserialize, read_fields, next_element_seed,
    Deserializer.peek_value, Deserializer.from_values]

/-- C8 counterexample: a map-shaped target does not make `from_values`
return an error value — the `deserialize_map` stub is `todo!()`, an
unrecoverable abort. -/
theorem unsupported_map_panics :
    from_values Shape.mapS [Value.I32 1] = .panic ∧
    ∀ e, from_values Shape.mapS [Value.I32 1] ≠ .err e := by
  have h : from_values Shape.mapS [Value.I32 1] = .panic := by
    simp [from_values, deserialize]
  exact ⟨h, fun e => by simp [h]⟩

/-- C8 amended: for every input, requesting any unsupported target shape
(bool, string, bytes, option, unit, map, enum, float) aborts with a
panic (`todo!()`) instead of returning an explicit error value. -/
theorem unsupported_shape_panics (shape : Shape) (h : shape.unsupported = true)
    (s : List Value) : from_values shape s = .panic := by
  cases shape <;> simp_all [Shape.unsupported, from_values, deserialize]

/-- Witness for C8: the map shape is unsupported and panics. -/
theorem unsupported_shape_panics_example :
    Shape.unsupported Shape.mapS = true ∧ from_values Shape.mapS [] = .panic :=
  ⟨rfl, unsupported_shape_panics Shape.mapS rfl []⟩

/-- C9: starting in bounds, every consuming cursor operation keeps the
input intact and the index within `0 ≤ idx ≤ length`, advances by exactly
one on success, and leaves the cursor unchanged on failure; the index
never decreases.  (`peek_value` returns no cursor at all: it cannot move
the index.) -/
theorem cursor_index_invariant (d : Deserializer) (h : d.idx ≤ d.input.length) :
    CursorOpSpec d := by
  unfold CursorOpSpec Deserializer.next_value Deserializer.next_i32
    Deserializer.next_i64 Deserializer.peek_value
  by_cases hlt : d.idx < d.input.length
  · simp only [dif_pos hlt]
    cases hv : d.input[d.idx] <;> (try dsimp only) <;>
      (repeat' apply And.intro) <;> (intros; first | rfl | omega | simp_all)
  · simp only [dif_neg hlt]
    try dsimp only
    (repeat' apply And.intro) <;> (intros; first | rfl | omega | simp_all)

/-- Witness for C9 at a concrete in-bounds cursor. -/
theorem cursor_index_invariant_example :
    (⟨[Value.I32 3], 0⟩ : Deserializer).idx
        ≤ (⟨[Value.I32 3], 0⟩ : Deserializer).input.length ∧
    CursorOpSpec ⟨[Value.I32 3], 0⟩ :=
  ⟨by decide, cursor_index_invariant _ (by decide)⟩

/-- C10: while input remains, a failing element deserialization is
propagated by `next_element_seed` as that same error; `ok none` arises
only at end of input (with the cursor returned unchanged). -/
theorem next_element_error_propagation (elem : Shape) (d d2 : Deserializer) (e : Error) :
    (d.idx < d.input.length → deserialize elem d = (.err e, d2) →
      next_element_seed elem d = (.err e, d2)) ∧
    (∀ d3, next_element_seed elem d = (.ok none, d3) →
      d3 = d ∧ d.input.length ≤ d.idx) := by
  constructor
  · intro hlt hde
    simp only [next_element_seed, Deserializer.peek_value, dif_pos hlt, hde]
  · intro d3 h
    rw [next_element_seed] at h
    split at h
    · rename_i hpeek
      obtain ⟨-, rfl⟩ := Prod.mk.injEq .. ▸ h
      refine ⟨rfl, ?_⟩
      rw [Deserializer.peek_value] at hpeek
      split at hpeek
      · exact absurd hpeek (by simp)
      · omega
    · split at h <;> simp_all

/-- Witness for C10: `Vec`-style access over `[A(1)]` with an `i64`
element request propagates the `TypeMismatch` error. -/
theorem next_element_error_propagation_example :
    (0 : Nat) < [Value.I32 1].length ∧
    deserialize Shape.i64 ⟨[Value.I32 1], 0⟩
      = (.err (.TypeMismatch "i64" "i32"), ⟨[Value.I32 1], 0⟩) ∧
    next_element_seed Shape.i64 ⟨[Value.I32 1], 0⟩
      = (.err (.TypeMismatch "i64" "i32"), ⟨[Value.I32 1], 0⟩) := by
  have hde : deserialize Shape.i64 ⟨[Value.I32 1], 0⟩
      = (.err (.TypeMismatch "i64" "i32"), ⟨[Value.I32 1], 0⟩) := by
    simp [deserialize, Deserializer.next_i64, Deserializer.peek_value]
  exact ⟨by decide, hde,
    (next_element_error_propagation Shape.i64 ⟨[Value.I32 1], 0⟩ _ _).1 (by decide) hde⟩
